import Mathlib

/-!
Shallow embedding of the ratex tree-walking interpreter core
(src/token.rs, src/ast/mod.rs, src/environment.rs, src/functions.rs,
src/class.rs, src/resolver.rs, src/interpreter.rs).

Modelling conventions:
* Rust `f64` is Lean `Float` (both IEEE-754 binary64).
* `Rc<RefCell<Environment>>`, `Rc<RefCell<dyn RatexCallable>>` and
  `Rc<RefCell<RatexInstance>>` are modelled as indices (`Nat`) into explicit
  heaps held in the interpreter state; `new`/`new_child` allocate by
  appending, so an environment's `enclosing` index is always smaller than
  its own index, mirroring the acyclic parent-pointer chain.
* `HashMap<String, _>` is an association list with insert-replaces-existing
  semantics (`alistInsert`) and first-match lookup (`alistGet`); the hash is
  semantically irrelevant.
* stdout (the `println!` calls in `visit_print` and `Environment::get_at`)
  is an explicit event list in the interpreter state.
* Rust panics (`Option::unwrap` on `None`, visiting an `Empty` AST node)
  are the `Res.panic` outcome; exhausting the host call stack is modelled
  by a fuel parameter whose exhaustion yields `Res.fuel`.  With enough fuel
  a terminating execution never yields `Res.fuel`.
-/

/-- Model of `RatexTokenType` (src/token.rs, lines 40-87). -/
inductive RXTT where
  | LeftParen | RightParen | LeftBrace | RightBrace | Comma | Dot
  | Minus | Plus | Semicolon | Slash | Star
  | Bang | BangEqual | Equal | EqualEqual
  | Greater | GreaterEqual | Less | LessEqual
  | Identifier
  | String (s : String)
  | Number (n : Float)
  | And | Class | Else | False | Fun | For | If | Nil | Or
  | Print | Return | Super | This | True | Var | While
  | Break
  | EOF
deriving BEq

/-- Model of `RatexToken` (src/token.rs, lines 3-8); `line` is `u32`. -/
structure RatexToken where
  token_type : RXTT
  lexeme : String
  line : Nat
deriving BEq

/-- Model of `RatexToken::default()`: `Break` is the `#[default]` token type. -/
def RatexToken.default : RatexToken :=
  { token_type := RXTT.Break, lexeme := "", line := 0 }

/-- Model of `RatexClass` (src/class.rs, lines 10-14): method values are
indices into the callable heap, modelling the shared `Rc<RatexFunction>`. -/
structure RatexClass where
  name : String
  methods : List (String × Nat)
deriving BEq

/-- Model of the runtime value type `Object` (src/ast/mod.rs, lines 14-23).
`Function` and `Instance` carry heap indices standing for the shared
`Rc<RefCell<_>>` pointers. -/
inductive Object where
  | Bool (b : Bool)
  | String (s : String)
  | Number (n : Float)
  | Function (f : Nat)
  | Class (c : RatexClass)
  | Instance (i : Nat)
  | Nil
deriving BEq

/-- Alias for the host `Bool` type, needed because inside the `Object`
namespace the bare name `Bool` denotes the `Object.Bool` constructor. -/
abbrev HostBool := Bool

/-- Model of `Object::is_truthy` (src/ast/mod.rs, lines 26-36). -/
def Object.is_truthy : Object → HostBool
  | .Bool b => b
  | .String s => s.length > 0
  | .Number n => n != 0.0
  | .Function _ => true
  | .Class _ => true
  | .Instance _ => true
  | .Nil => false

/-- Model of `RatexInstance` (src/class.rs, lines 45-49). -/
structure RatexInstance where
  klass : RatexClass
  fields : List (String × Object)

/-- Model of `RatexErrorType` (src/error.rs, lines 25-43); `RatexError` is a
single-field wrapper around it and is identified with it here.  The
variants `AccessUnknownField`, `NonInstanceSet` and `InvalidReturnLocation`
do not appear in the enum declaration of error.rs but are constructed at
their use sites (src/class.rs line 73, src/interpreter.rs line 291,
src/resolver.rs line 269) and listed in the spec's error taxonomy, so they
are included. -/
inductive RatexErrorType where
  | UnknownToken (line : Nat) (s : String)
  | UnterminatedString (line : Nat) (s : String)
  | UnterminatedBlockComment (line : Nat) (s : String)
  | UnexpectedToken (line : Nat) (s : String)
  | ExpectedToken (line : Nat) (s : String)
  | UndefinedIdentifier (name : String)
  | InvalidAssignment (line : Nat)
  | InvalidLogicalOperation (line : Nat)
  | InvalidFunctionCall
  | IncompatibleArity
  | VarInInitialiser
  | RedeclareLocalVariable (line : Nat)
  | AccessUnknownField (name : String)
  | NonInstanceSet
  | InvalidReturnLocation
  | Break
  | Return (obj : Object)

/-- One event on stdout: `printed s` is the `println!("{value}")` of
`visit_print` (src/interpreter.rs, line 359); `debugEnv e` is the
`println!("{:?}", &env)` of `Environment::get_at` (src/environment.rs,
line 63), which dumps the debug representation of environment `e`. -/
inductive OutEvent where
  | printed (s : String)
  | debugEnv (e : Nat)
deriving BEq, DecidableEq

/-- Outcome of an evaluation step: `ok`, a propagated `RatexError`, a Rust
panic (`unwrap` on `None` / visiting an `Empty` node), or fuel exhaustion
(the model of blowing the host call stack). -/
inductive Res (α : Type) where
  | ok (a : α)
  | err (e : RatexErrorType)
  | panic
  | fuel

mutual
/-- Model of the expression AST (src/ast/mod.rs, lines 76-90), including the
implicit `Empty` variant added by the `ast_derive!` macro. -/
inductive Expr where
  | Empty
  | Binary (left : Expr) (operator : RatexToken) (right : Expr)
  | Logical (left : Expr) (operator : RatexToken) (right : Expr)
  | Set (object : Expr) (name : RatexToken) (value : Expr)
  | This (keyword : RatexToken)
  | Unary (operator : RatexToken) (right : Expr)
  | Literal (value : Object)
  | Grouping (expr : Expr)
  | Variable (name : RatexToken)
  | Assign (name : RatexToken) (value : Expr)
  | Call (callee : Expr) (paren : RatexToken) (arguments : List Expr)
  | Get (object : Expr) (name : RatexToken)
  | Lambda (params : List RatexToken) (body : List Stmt)

/-- Model of the statement AST (src/ast/mod.rs, lines 92-104), including the
implicit `Empty` variant added by the `ast_derive!` macro. -/
inductive Stmt where
  | Empty
  | Block (statements : List Stmt)
  | Class (name : RatexToken) (methods : List Stmt)
  | Expression (expr : Expr)
  | If (condition : Expr) (then_stmt : Stmt) (else_stmt : Stmt)
  | Fun (name : RatexToken) (params : List RatexToken) (body : List Stmt)
  | While (condition : Expr) (body : Stmt)
  | Break
  | Print (expr : Expr)
  | Return (keyword : RatexToken) (value : Expr)
  | Var (name : RatexToken) (initialiser : Expr)
end

mutual
/-- Structural equality on expressions, modelling the `#[derive(PartialEq)]`
on the AST (used as the key equality of the interpreter's `locals` map);
`f64` fields compare by IEEE equality, as in Rust. -/
def exprBEq (x : Expr) (y : Expr) : Bool :=
  match x, y with
  | .Empty, .Empty => true
  | .Binary l1 o1 r1, .Binary l2 o2 r2 => exprBEq l1 l2 && o1 == o2 && exprBEq r1 r2
  | .Logical l1 o1 r1, .Logical l2 o2 r2 => exprBEq l1 l2 && o1 == o2 && exprBEq r1 r2
  | .Set ob1 n1 v1, .Set ob2 n2 v2 => exprBEq ob1 ob2 && n1 == n2 && exprBEq v1 v2
  | .This k1, .This k2 => k1 == k2
  | .Unary o1 r1, .Unary o2 r2 => o1 == o2 && exprBEq r1 r2
  | .Literal v1, .Literal v2 => v1 == v2
  | .Grouping e1, .Grouping e2 => exprBEq e1 e2
  | .Variable n1, .Variable n2 => n1 == n2
  | .Assign n1 v1, .Assign n2 v2 => n1 == n2 && exprBEq v1 v2
  | .Call c1 p1 a1, .Call c2 p2 a2 => exprBEq c1 c2 && p1 == p2 && exprListBEq a1 a2
  | .Get ob1 n1, .Get ob2 n2 => exprBEq ob1 ob2 && n1 == n2
  | .Lambda p1 b1, .Lambda p2 b2 => p1 == p2 && stmtListBEq b1 b2
  | _, _ => false
termination_by structural x

def exprListBEq (x : List Expr) (y : List Expr) : Bool :=
  match x, y with
  | [], [] => true
  | e1 :: t1, e2 :: t2 => exprBEq e1 e2 && exprListBEq t1 t2
  | _, _ => false
termination_by structural x

/-- Structural equality on statements (see `exprBEq`). -/
def stmtBEq (x : Stmt) (y : Stmt) : Bool :=
  match x, y with
  | .Empty, .Empty => true
  | .Block s1, .Block s2 => stmtListBEq s1 s2
  | .Class n1 m1, .Class n2 m2 => n1 == n2 && stmtListBEq m1 m2
  | .Expression e1, .Expression e2 => exprBEq e1 e2
  | .If c1 t1 e1, .If c2 t2 e2 => exprBEq c1 c2 && stmtBEq t1 t2 && stmtBEq e1 e2
  | .Fun n1 p1 b1, .Fun n2 p2 b2 => n1 == n2 && p1 == p2 && stmtListBEq b1 b2
  | .While c1 b1, .While c2 b2 => exprBEq c1 c2 && stmtBEq b1 b2
  | .Break, .Break => true
  | .Print e1, .Print e2 => exprBEq e1 e2
  | .Return k1 v1, .Return k2 v2 => k1 == k2 && exprBEq v1 v2
  | .Var n1 i1, .Var n2 i2 => n1 == n2 && exprBEq i1 i2
  | _, _ => false
termination_by structural x

def stmtListBEq (x : List Stmt) (y : List Stmt) : Bool :=
  match x, y with
  | [], [] => true
  | s1 :: t1, s2 :: t2 => stmtBEq s1 s2 && stmtListBEq t1 t2
  | _, _ => false
termination_by structural x
end

/-- First-match lookup in an association list, modelling `HashMap::get`. -/
def alistGet (l : List (String × Object)) (k : String) : Option Object :=
  match l with
  | [] => none
  | (k1, v) :: rest => if k1 == k then some v else alistGet rest k

/-- Insert-or-replace in an association list, modelling `HashMap::insert`. -/
def alistInsert (l : List (String × Object)) (k : String) (v : Object) :
    List (String × Object) :=
  match l with
  | [] => [(k, v)]
  | (k1, v1) :: rest =>
      if k1 == k then (k1, v) :: rest else (k1, v1) :: alistInsert rest k v

/-- Membership test in an association list, modelling `HashMap::contains_key`. -/
def alistContains (l : List (String × Object)) (k : String) : Bool :=
  match l with
  | [] => false
  | (k1, _) :: rest => if k1 == k then true else alistContains rest k

/-- Replace the element at index `i` (identity when out of range), used to
mutate a heap cell in place through its `RefCell`. -/
def listModify (l : List α) (i : Nat) (f : α → α) : List α :=
  match l, i with
  | [], _ => []
  | x :: rest, 0 => f x :: rest
  | x :: rest, j + 1 => x :: listModify rest j f

/-- Model of `Environment` (src/environment.rs, lines 8-12): `enclosing` is
an index into the environment heap. -/
structure Environment where
  values : List (String × Object)
  enclosing : Option Nat

/-- Environment heap: the collection of all `Rc<RefCell<Environment>>`
allocations, addressed by index. -/
abbrev EnvHeap := List Environment

/-- Model of `Environment::new_child` (src/environment.rs, lines 36-41):
allocates a fresh environment whose `enclosing` is `parent`; returns the
extended heap and the new index. -/
def Environment.new_child (H : EnvHeap) (parent : Nat) : EnvHeap × Nat :=
  (H ++ [{ values := [], enclosing := some parent }], H.length)

/-- Model of `Environment::define` (src/environment.rs, lines 43-45) on the
environment at index `e`. -/
def Environment.define (H : EnvHeap) (e : Nat) (name : String) (value : Object) :
    EnvHeap :=
  listModify H e (fun env => { env with values := alistInsert env.values name value })

/-- Chain-walking core of `Environment::get` (src/environment.rs, lines
47-60) with explicit fuel against an ill-founded heap; on a dangling index
the result is `panic` (unreachable in states produced by `new`/`new_child`). -/
def Environment.getFuel (H : EnvHeap) : Nat → Nat → String → Res Object
  | 0, _, _ => .fuel
  | n + 1, e, name =>
    match H.get? e with
    | none => .panic
    | some env =>
      match alistGet env.values name with
      | some v => .ok v
      | none =>
        match env.enclosing with
        | some parent => Environment.getFuel H n parent name
        | none => .err (.UndefinedIdentifier name)

/-- Model of `Environment::get` (src/environment.rs, lines 47-60): linear
search from environment `e` up the `enclosing` chain; the chain length is
bounded by the heap size, so `H.length + 1` fuel is always sufficient. -/
def Environment.get (H : EnvHeap) (e : Nat) (name : String) : Res Object :=
  Environment.getFuel H (H.length + 1) e name

/-- Model of `Environment::ancestor` (src/environment.rs, lines 99-107):
walk exactly `distance` `enclosing` links; `.unwrap()` on a missing parent
is a panic. -/
def Environment.ancestor (H : EnvHeap) : Nat → Nat → Res Nat
  | 0, e => .ok e
  | d + 1, e =>
    match H.get? e with
    | none => .panic
    | some env =>
      match env.enclosing with
      | some parent => Environment.ancestor H d parent
      | none => .panic

/-- Model of `Environment::get_at` (src/environment.rs, lines 62-71).  Its
first action is `println!("{:?}", &env)` — a debug print to stdout — so the
result carries the emitted output event alongside the looked-up value; the
`.unwrap()` on a name missing from the ancestor's own table is a panic. -/
def Environment.get_at (H : EnvHeap) (env : Nat) (distance : Nat) (name : String) :
    Res Object × List OutEvent :=
  (match Environment.ancestor H distance env with
   | .ok a =>
     match H.get? a with
     | none => .panic
     | some anc =>
       match alistGet anc.values name with
       | some v => .ok v
       | none => .panic
   | .err e => .err e
   | .panic => .panic
   | .fuel => .fuel,
   [OutEvent.debugEnv env])

/-- Chain-walking core of `Environment::assign` (src/environment.rs, lines
73-90) with explicit fuel (see `Environment.getFuel`). -/
def Environment.assignFuel (H : EnvHeap) : Nat → Nat → String → Object →
    Res EnvHeap
  | 0, _, _, _ => .fuel
  | n + 1, e, name, value =>
    match H.get? e with
    | none => .panic
    | some env =>
      if alistContains env.values name then
        .ok (Environment.define H e name value)
      else
        match env.enclosing with
        | some parent => Environment.assignFuel H n parent name value
        | none => .err (.UndefinedIdentifier name)

/-- Model of `Environment::assign` (src/environment.rs, lines 73-90): mutate
the nearest scope already containing `name`, walking up from `e`. -/
def Environment.assign (H : EnvHeap) (e : Nat) (name : String) (value : Object) :
    Res EnvHeap :=
  Environment.assignFuel H (H.length + 1) e name value

/-- Model of `Environment::assign_at` (src/environment.rs, lines 92-97):
walk exactly `distance` links, then insert directly into that scope. -/
def Environment.assign_at (H : EnvHeap) (env : Nat) (distance : Nat)
    (name : String) (value : Object) : Res EnvHeap :=
  match Environment.ancestor H distance env with
  | .ok a => .ok (Environment.define H a name value)
  | .err e => .err e
  | .panic => .panic
  | .fuel => .fuel

/-- Model of `RatexFunction` (src/functions.rs, lines 16-21): `closure` is
an environment-heap index. -/
structure RatexFunctionData where
  name : String
  declaration : Stmt
  closure : Nat

/-- One cell of the callable heap (a `Rc<RefCell<dyn RatexCallable>>`): a
user `RatexFunction` or the builtin `ClockFunction` (src/functions.rs). -/
inductive Callable where
  | ratexFun (f : RatexFunctionData)
  | clock

/-- Stand-in for the wall-clock sample `ClockFunction::call` takes
(src/functions.rs, lines 108-115); real time has no pure model, and no
claim exercises `clock`. -/
def clockSeconds : Float := 0.0

/-- Model of `RatexInterpreter` (src/interpreter.rs, lines 16-21) extended
with the heaps standing for the `Rc<RefCell<_>>` allocations and with the
stdout stream. -/
structure Interp where
  environment : Nat
  locals : List (Expr × Nat)
  globals : Nat
  envs : EnvHeap
  funs : List Callable
  instances : List RatexInstance
  output : List OutEvent

/-- Model of `RatexInterpreter::new` (src/interpreter.rs, lines 74-88):
globals hold the `clock` builtin and the current environment starts as the
globals. -/
def RatexInterpreter.new : Interp :=
  { environment := 0
    locals := []
    globals := 0
    envs := [{ values := [("clock", Object.Function 0)], enclosing := none }]
    funs := [Callable.clock]
    instances := []
    output := [] }

/-- Lookup in the `locals` table, keyed by structural expression equality —
the model of `HashMap<Rc<Expr>, usize>::get` in `look_up_variable` /
`visit_assign`. -/
def localsGet (l : List (Expr × Nat)) (k : Expr) : Option Nat :=
  match l with
  | [] => none
  | (k1, d) :: rest => if exprBEq k1 k then some d else localsGet rest k

/-- Insert into the `locals` table — the model of
`RatexInterpreter::resolve` (src/interpreter.rs, lines 32-34). -/
def localsInsert (l : List (Expr × Nat)) (k : Expr) (depth : Nat) :
    List (Expr × Nat) :=
  match l with
  | [] => [(k, depth)]
  | (k1, d1) :: rest =>
      if exprBEq k1 k then (k1, depth) :: rest
      else (k1, d1) :: localsInsert rest k depth

/-- First-match lookup in a class's method table. -/
def methodsGet (l : List (String × Nat)) (k : String) : Option Nat :=
  match l with
  | [] => none
  | (k1, v) :: rest => if k1 == k then some v else methodsGet rest k

/-- Insert-or-replace in a class's method table. -/
def methodsInsert (l : List (String × Nat)) (k : String) (v : Nat) :
    List (String × Nat) :=
  match l with
  | [] => [(k, v)]
  | (k1, v1) :: rest =>
      if k1 == k then (k1, v) :: rest else (k1, v1) :: methodsInsert rest k v

/-- Model of `RatexClass::find_method` (src/class.rs, lines 21-28): a hit is
returned as an `Object::Function` sharing the stored callable cell. -/
def RatexClass.find_method (c : RatexClass) (name : String) : Option Object :=
  match methodsGet c.methods name with
  | some f => some (Object.Function f)
  | none => none

/-- Model of `RatexInstance::get` (src/class.rs, lines 63-75): own fields
first, then the class's method table — the method is returned as stored,
with no `bind` — else `AccessUnknownField`. -/
def RatexInstance.get (inst : RatexInstance) (name : String) : Res Object :=
  match alistGet inst.fields name with
  | some v => .ok v
  | none =>
    match RatexClass.find_method inst.klass name with
    | some m => .ok m
    | none => .err (.AccessUnknownField name)

/-- Model of `RatexFunction::bind` (src/functions.rs, lines 93-101): wrap
the given instance in a fresh cell, make a child of the function's closure
defining `this` to it, and repoint the closure there.  Nothing in the
interpreter ever calls `bind`. -/
def RatexFunction.bind (H : EnvHeap) (insts : List RatexInstance)
    (f : RatexFunctionData) (inst : RatexInstance) :
    EnvHeap × List RatexInstance × RatexFunctionData :=
  let instIdx := insts.length
  let (H1, env) := Environment.new_child H f.closure
  let H2 := Environment.define H1 env "this" (Object.Instance instIdx)
  (H2, insts ++ [inst], { f with closure := env })

/-- Model of `RatexCallable::arity` as dispatched on a callable-heap cell
(src/functions.rs, lines 66-73 and 117-119); a dangling index is
unreachable and modelled as a panic. -/
def callableArity (funs : List Callable) (i : Nat) : Res Nat :=
  match funs.get? i with
  | some (.ratexFun f) =>
    match f.declaration with
    | .Fun _ params _ => .ok params.length
    | _ => .err .InvalidFunctionCall
  | some .clock => .ok 0
  | none => .panic

/-- Model of `Display for Object` (src/ast/mod.rs, lines 106-118); the
number case approximates Rust's `{}` float formatting by `toString` (no
claim inspects the printed form of a number). -/
def objDisplay (funs : List Callable) (insts : List RatexInstance) :
    Object → String
  | .Bool b => toString b
  | .String s => s
  | .Number n => toString n
  | .Function f =>
    match funs.get? f with
    | some (.ratexFun d) => "<function " ++ d.name ++ ">"
    | some .clock => "<function clock>"
    | none => "<function >"
  | .Class c => "<class " ++ c.name ++ ">"
  | .Instance i =>
    match insts.get? i with
    | some inst => "<" ++ inst.klass.name ++ " class instance>"
    | none => "< class instance>"
  | .Nil => "Nil"

/-- Model of `RatexInterpreter::look_up_variable` (src/interpreter.rs,
lines 90-102): a resolver-recorded distance routes through
`Environment::get_at` (whose debug print lands on the output stream);
otherwise a dynamic `get` against the globals. -/
def look_up_variable (st : Interp) (name : RatexToken) (expr : Expr) :
    Res Object × Interp :=
  match localsGet st.locals expr with
  | some distance =>
    match Environment.get_at st.envs st.environment distance name.lexeme with
    | (r, out) => (r, { st with output := st.output ++ out })
  | none => (Environment.get st.envs st.globals name.lexeme, st)

/-- Model of the operand-kind dispatch of `visit_binary`
(src/interpreter.rs, lines 110-140): a total function — no
operator/operand-kind combination is an error.  Orderings on numbers are
IEEE comparisons; orderings on booleans follow Rust's `false < true`. -/
def binaryOp (left : Object) (op : RXTT) (right : Object) : Object :=
  match left, right with
  | .Number n1, .Number n2 =>
    match op with
    | .Minus => .Number (n1 - n2)
    | .Slash => .Number (n1 / n2)
    | .Star => .Number (n1 * n2)
    | .Plus => .Number (n1 + n2)
    | .Greater => .Bool (decide (n1 > n2))
    | .GreaterEqual => .Bool (decide (n1 ≥ n2))
    | .Less => .Bool (decide (n1 < n2))
    | .LessEqual => .Bool (decide (n1 ≤ n2))
    | .BangEqual => .Bool (n1 != n2)
    | .EqualEqual => .Bool (n1 == n2)
    | _ => .Nil
  | .String s1, .String s2 =>
    match op with
    | .Plus => .String (s1 ++ s2)
    | .BangEqual => .Bool (s1 != s2)
    | .EqualEqual => .Bool (s1 == s2)
    | _ => .Nil
  | .Bool b1, .Bool b2 =>
    match op with
    | .Greater => .Bool (b1 && !b2)
    | .GreaterEqual => .Bool (b1 || !b2)
    | .Less => .Bool (!b1 && b2)
    | .LessEqual => .Bool (!b1 || b2)
    | .BangEqual => .Bool (b1 != b2)
    | .EqualEqual => .Bool (b1 == b2)
    | _ => .Nil
  | _, _ => .Nil

/-- Model of `visit_unary` 's operator dispatch (src/interpreter.rs, lines
146-158): note `-` on a `Bool` negates it and `!` on a `Bool` returns it
unchanged, exactly as the source does. -/
def unaryOp (op : RXTT) (right : Object) : Object :=
  match op with
  | .Minus =>
    match right with
    | .Bool b => .Bool (!b)
    | .Number n => .Number (-n)
    | _ => .Nil
  | .Bang =>
    match right with
    | .Bool b => .Bool b
    | .String _ => .Bool true
    | .Number _ => .Bool true
    | _ => .Nil
  | _ => .Nil

/-- Sequencing of the Rust `?` operator on a state-carrying result:
continue on `Ok`, propagate an error, a panic or fuel exhaustion. -/
def andThen (r : Res α × σ) (k : α → σ → Res β × σ) :
    Res β × σ :=
  match r with
  | (.ok v, st) => k v st
  | (.err e, st) => (.err e, st)
  | (.panic, st) => (.panic, st)
  | (.fuel, st) => (.fuel, st)

/-- Model of the parameter-binding loop of `RatexFunction::call`
(src/functions.rs, lines 50-55): parameters are defined directly into the
function's closure environment; `arguments.get(i).unwrap()` panics when
the argument list is shorter than the parameter list, and surplus
arguments are ignored. -/
def defineParams (H : EnvHeap) (env : Nat) :
    List RatexToken → List Object → Res EnvHeap
  | [], _ => .ok H
  | p :: ps, a :: rest => defineParams (Environment.define H env p.lexeme a) env ps rest
  | _ :: _, [] => .panic

/-- Model of the method-construction loop of `visit_class`
(src/interpreter.rs, lines 402-413): every method closes over a fresh
child of the current environment and is allocated on the callable heap;
non-`Fun` entries are skipped. -/
def classMethods (methods : List Stmt) (acc : List (String × Nat))
    (st : Interp) : List (String × Nat) × Interp :=
  match methods with
  | [] => (acc, st)
  | m :: rest =>
    match m with
    | .Fun fname params body =>
      let (H, closure) := Environment.new_child st.envs st.environment
      let idx := st.funs.length
      classMethods rest (methodsInsert acc fname.lexeme idx)
        { st with
            envs := H
            funs := st.funs ++
              [Callable.ratexFun ⟨fname.lexeme, Stmt.Fun fname params body, closure⟩] }
    | _ => classMethods rest acc st

/-- Dispatch tag tying the mutually recursive evaluator procedures of
`RatexInterpreter` (and the callable protocol) into one step-indexed
function, so that the recursion is plain `Nat.rec` on the fuel: which
visitor loop is being entered, with its arguments. -/
inductive Job where
  | jEval (e : Expr)
  | jArgs (args : List Expr)
  | jExec (s : Stmt)
  | jSeq (stmts : List Stmt)
  | jBlock (stmts : List Stmt) (env : Nat)
  | jWhile (cond : Expr) (body : Stmt)
  | jCall (i : Nat) (args : List Object)

/-- Value produced by each dispatch tag: expressions and calls produce an
`Object`, the argument loop a list of objects, statements `Unit`. -/
def JobOut : Job → Type
  | .jEval _ => Object
  | .jArgs _ => List Object
  | .jExec _ => Unit
  | .jSeq _ => Unit
  | .jBlock _ _ => Unit
  | .jWhile _ _ => Unit
  | .jCall _ _ => Object

/-- One step of the evaluator: `prev` interprets every job at strictly
smaller call depth.  The cases are the models of, in order:
* `jEval` — `RatexInterpreter::evaluate` = `expr.accept(self)` dispatching
  to the `visit_*` expression visitors (src/interpreter.rs, lines 24-26
  and 105-299);
* `jArgs` — the argument-evaluation loop of `visit_call`
  (src/interpreter.rs, lines 219-223);
* `jExec` — `RatexInterpreter::execute` = `statement.accept(self)`
  dispatching to the `visit_*` statement visitors (src/interpreter.rs,
  lines 28-30 and 301-423);
* `jSeq` — the statement loop inside `execute_block`
  (src/interpreter.rs, lines 44-51);
* `jBlock` — `RatexInterpreter::execute_block` (src/interpreter.rs, lines
  36-56): swap in `env`, run the statements, and restore the saved
  environment only on the normal path — an `Err` (which includes the
  Break and Return signals) returns early with the block's environment
  still current, exactly as the early `return Err(e)` in the source does;
* `jWhile` — `visit_while` (src/interpreter.rs, lines 343-349): loop while
  the condition is truthy; an `Err` from the body — including a Break
  signal — propagates straight out of the loop;
* `jCall` — `RatexCallable::call` dispatched on a callable-heap cell:
  `RatexFunction::call` (src/functions.rs, lines 43-64) binds the
  parameters directly into the function's closure environment and executes
  the body there, defaulting to `Nil`; `ClockFunction::call` returns the
  sampled time. -/
def interpStep (prev : (j : Job) → Interp → Res (JobOut j) × Interp) :
    (j : Job) → Interp → Res (JobOut j) × Interp
  | .jEval e, st =>
    match e with
    | .Empty => (.panic, st)
    | .Binary l op r =>
      andThen (prev (.jEval l) st) fun lv st1 =>
      andThen (prev (.jEval r) st1) fun rv st2 =>
      (.ok (binaryOp lv op.token_type rv), st2)
    | .Logical l op r =>
      andThen (prev (.jEval l) st) fun lv st1 =>
      match op.token_type with
      | .Or => if lv.is_truthy then (.ok lv, st1) else prev (.jEval r) st1
      | .And => if !lv.is_truthy then (.ok lv, st1) else prev (.jEval r) st1
      | _ => (.err (.InvalidLogicalOperation op.line), st1)
    | .Set obj name value =>
      andThen (prev (.jEval obj) st) fun ov st1 =>
      match ov with
      | .Instance i =>
        andThen (prev (.jEval value) st1) fun v st2 =>
        (.ok v, { st2 with
            instances := listModify st2.instances i
              (fun inst => { inst with fields := alistInsert inst.fields name.lexeme v }) })
      | _ => (.err .NonInstanceSet, st1)
    | .This keyword => look_up_variable st keyword (Expr.This keyword)
    | .Unary op r =>
      andThen (prev (.jEval r) st) fun rv st1 =>
      (.ok (unaryOp op.token_type rv), st1)
    | .Literal v => (.ok v, st)
    | .Grouping g => prev (.jEval g) st
    | .Variable name => look_up_variable st name (Expr.Variable name)
    | .Assign name value =>
      andThen (prev (.jEval value) st) fun v st1 =>
      match localsGet st1.locals (Expr.Assign name value) with
      | some d =>
        match Environment.assign_at st1.envs st1.environment d name.lexeme v with
        | .ok H => (.ok v, { st1 with envs := H })
        | .err e1 => (.err e1, st1)
        | .panic => (.panic, st1)
        | .fuel => (.fuel, st1)
      | none =>
        match Environment.assign st1.envs st1.environment name.lexeme v with
        | .ok H => (.ok v, { st1 with envs := H })
        | .err e1 => (.err e1, st1)
        | .panic => (.panic, st1)
        | .fuel => (.fuel, st1)
    | .Call callee _ args =>
      andThen (prev (.jEval callee) st) fun cv st1 =>
      andThen (prev (.jArgs args) st1) fun vals st2 =>
      match cv with
      | .Function i =>
        match callableArity st2.funs i with
        | .ok k =>
          if vals.length == k then
            match prev (.jCall i vals) st2 with
            | (.ok obj, st3) => (.ok obj, st3)
            | (.err e1, st3) =>
              match e1 with
              | .Return obj => (.ok obj, st3)
              | _ => (.err e1, st3)
            | (.panic, st3) => (.panic, st3)
            | (.fuel, st3) => (.fuel, st3)
          else (.err .IncompatibleArity, st2)
        | .err e1 => (.err e1, st2)
        | .panic => (.panic, st2)
        | .fuel => (.fuel, st2)
      | .Class c =>
        (.ok (.Instance st2.instances.length),
         { st2 with instances := st2.instances ++ [⟨c, []⟩] })
      | _ => (.err .InvalidFunctionCall, st2)
    | .Get obj name =>
      andThen (prev (.jEval obj) st) fun ov st1 =>
      match ov with
      | .Instance i =>
        match st1.instances.get? i with
        | some inst => (RatexInstance.get inst name.lexeme, st1)
        | none => (.panic, st1)
      | _ => (.err .InvalidFunctionCall, st1)
    | .Lambda params body =>
      (.ok (.Function st.funs.length),
       { st with funs := st.funs ++
           [Callable.ratexFun
             ⟨"anonymous", Stmt.Fun RatexToken.default params body, st.environment⟩] })
  | .jArgs args, st =>
    match args with
    | [] => (.ok [], st)
    | e :: rest =>
      andThen (prev (.jEval e) st) fun v st1 =>
      andThen (prev (.jArgs rest) st1) fun vs st2 =>
      (.ok (v :: vs), st2)
  | .jExec s, st =>
    match s with
    | .Empty => (.panic, st)
    | .Block stmts =>
      let (H, env) := Environment.new_child st.envs st.environment
      prev (.jBlock stmts env) { st with envs := H }
    | .Class name methods =>
      let H0 := Environment.define st.envs st.environment name.lexeme .Nil
      let (ms, st1) := classMethods methods [] { st with envs := H0 }
      match Environment.assign st1.envs st1.environment name.lexeme
          (.Class ⟨name.lexeme, ms⟩) with
      | .ok H => (.ok (), { st1 with envs := H })
      | .err e1 => (.err e1, st1)
      | .panic => (.panic, st1)
      | .fuel => (.fuel, st1)
    | .Expression e =>
      andThen (prev (.jEval e) st) fun _ st1 => (.ok (), st1)
    | .If cond t els =>
      andThen (prev (.jEval cond) st) fun v st1 =>
      if v.is_truthy then prev (.jExec t) st1
      else
        match els with
        | .Empty => (.ok (), st1)
        | _ => prev (.jExec els) st1
    | .Fun name params body =>
      let (H, closure) := Environment.new_child st.envs st.environment
      let idx := st.funs.length
      (.ok (),
       { st with
           envs := Environment.define H st.environment name.lexeme (.Function idx)
           funs := st.funs ++
             [Callable.ratexFun ⟨name.lexeme, Stmt.Fun name params body, closure⟩] })
    | .While cond body => prev (.jWhile cond body) st
    | .Break => (.err .Break, st)
    | .Print e =>
      andThen (prev (.jEval e) st) fun v st1 =>
      (.ok (),
       { st1 with output := st1.output ++
           [.printed (objDisplay st1.funs st1.instances v)] })
    | .Return _ value =>
      andThen (prev (.jEval value) st) fun v st1 => (.err (.Return v), st1)
    | .Var name init =>
      andThen
        (match init with
         | .Empty => (.ok Object.Nil, st)
         | _ => prev (.jEval init) st) fun v st1 =>
      match name.token_type with
      | .Identifier =>
        (.ok (), { st1 with envs := Environment.define st1.envs st1.environment name.lexeme v })
      | _ => (.err (.ExpectedToken name.line "Identifier"), st1)
  | .jSeq stmts, st =>
    match stmts with
    | [] => (.ok (), st)
    | s :: rest =>
      andThen (prev (.jExec s) st) fun _ st1 => prev (.jSeq rest) st1
  | .jBlock stmts env, st =>
    let old := st.environment
    match prev (.jSeq stmts) { st with environment := env } with
    | (.ok _, st1) => (.ok (), { st1 with environment := old })
    | (.err e1, st1) => (.err e1, st1)
    | (.panic, st1) => (.panic, st1)
    | (.fuel, st1) => (.fuel, st1)
  | .jWhile cond body, st =>
    andThen (prev (.jEval cond) st) fun v st1 =>
    if v.is_truthy then
      andThen (prev (.jExec body) st1) fun _ st2 => prev (.jWhile cond body) st2
    else (.ok (), st1)
  | .jCall i args, st =>
    match st.funs.get? i with
    | none => (.panic, st)
    | some .clock => (.ok (.Number clockSeconds), st)
    | some (.ratexFun f) =>
      match f.declaration with
      | .Fun _ params body =>
        match defineParams st.envs f.closure params args with
        | .ok H =>
          andThen (prev (.jBlock body f.closure) { st with envs := H })
            fun _ st1 => (.ok .Nil, st1)
        | .err e1 => (.err e1, st)
        | .panic => (.panic, st)
        | .fuel => (.fuel, st)
      | _ => (.err .InvalidFunctionCall, st)

/-- The step-indexed evaluator: fuel 0 models a blown host call stack;
each further unit of fuel allows one more level of the `visit_*`
recursion. -/
def interpRun : Nat → (j : Job) → Interp → Res (JobOut j) × Interp :=
  fun fuel =>
    Nat.rec (fun _ st => (.fuel, st)) (fun _ prev => interpStep prev) fuel

/-- Model of `RatexInterpreter::evaluate` (src/interpreter.rs, lines
24-26): `expr.accept(self)`. -/
def evaluate (fuel : Nat) (e : Expr) (st : Interp) : Res Object × Interp :=
  interpRun fuel (.jEval e) st

/-- Model of the argument-evaluation loop of `visit_call`
(src/interpreter.rs, lines 219-223). -/
def evalArgs (fuel : Nat) (args : List Expr) (st : Interp) :
    Res (List Object) × Interp :=
  interpRun fuel (.jArgs args) st

/-- Model of `RatexInterpreter::execute` (src/interpreter.rs, lines
28-30): `statement.accept(self)`. -/
def execute (fuel : Nat) (s : Stmt) (st : Interp) : Res Unit × Interp :=
  interpRun fuel (.jExec s) st

/-- Model of the statement loop inside `execute_block`
(src/interpreter.rs, lines 44-51). -/
def executeSeq (fuel : Nat) (stmts : List Stmt) (st : Interp) :
    Res Unit × Interp :=
  interpRun fuel (.jSeq stmts) st

/-- Model of `RatexInterpreter::execute_block` (src/interpreter.rs, lines
36-56); see the `jBlock` case of `interpStep`. -/
def execute_block (fuel : Nat) (stmts : List Stmt) (env : Nat) (st : Interp) :
    Res Unit × Interp :=
  interpRun fuel (.jBlock stmts env) st

/-- Model of `visit_while` (src/interpreter.rs, lines 343-349); see the
`jWhile` case of `interpStep`. -/
def whileLoop (fuel : Nat) (cond : Expr) (body : Stmt) (st : Interp) :
    Res Unit × Interp :=
  interpRun fuel (.jWhile cond body) st

/-- Model of `RatexCallable::call` on a callable-heap cell
(src/functions.rs, lines 43-64 and 108-115); see the `jCall` case of
`interpStep`. -/
def callCallable (fuel : Nat) (i : Nat) (args : List Object) (st : Interp) :
    Res Object × Interp :=
  interpRun fuel (.jCall i args) st


/-- Model of `RatexInterpreter::interpret` (src/interpreter.rs, lines
58-72): execute the top-level statements in order; an `Err` whose source is
`Break` is swallowed and the loop continues; any other `Err` aborts the
loop and is returned. -/
def interpret (fuel : Nat) : List Stmt → Interp → Res Unit × Interp
  | [], st => (.ok (), st)
  | s :: rest, st =>
    match execute fuel s st with
    | (.ok _, st1) => interpret fuel rest st1
    | (.err .Break, st1) => interpret fuel rest st1
    | (.err e1, st1) => (.err e1, st1)
    | (.panic, st1) => (.panic, st1)
    | (.fuel, st1) => (.fuel, st1)

/-- Model of `FunctionType` (src/resolver.rs, lines 18-23). -/
inductive FunctionType where
  | Function
  | None
  | Method

/-- First-match lookup in one resolver scope (`HashMap<String, bool>`). -/
def balistGet (l : List (String × Bool)) (k : String) : Option Bool :=
  match l with
  | [] => none
  | (k1, v) :: rest => if k1 == k then some v else balistGet rest k

/-- Insert-or-replace in one resolver scope. -/
def balistInsert (l : List (String × Bool)) (k : String) (v : Bool) :
    List (String × Bool) :=
  match l with
  | [] => [(k, v)]
  | (k1, v1) :: rest =>
      if k1 == k then (k1, v) :: rest else (k1, v1) :: balistInsert rest k v

/-- Membership test in one resolver scope. -/
def balistContains (l : List (String × Bool)) (k : String) : Bool :=
  match l with
  | [] => false
  | (k1, _) :: rest => if k1 == k then true else balistContains rest k

/-- Model of `Resolver` (src/resolver.rs, lines 25-30).  `scopes` is the
`VecDeque` with its back — the innermost scope — at the HEAD of the list,
so the distance `scopes.len() - 1 - i` recorded by `resolve_local` is the
position counted from the head.  `locals` is the interpreter's side table,
which the resolver mutates through its `interpreter` handle. -/
structure Resolver where
  scopes : List (List (String × Bool))
  current_function : FunctionType
  locals : List (Expr × Nat)

/-- Model of `Resolver::new` (src/resolver.rs, lines 33-39). -/
def Resolver.new : Resolver :=
  { scopes := [], current_function := .None, locals := [] }

/-- Position (from innermost outwards) of the first scope containing
`name` — the loop of `resolve_local` (src/resolver.rs, lines 94-107). -/
def findScopeDepth : List (List (String × Bool)) → String → Option Nat
  | [], _ => none
  | s :: rest, name =>
    if balistContains s name then some 0
    else
      match findScopeDepth rest name with
      | some d => some (d + 1)
      | none => none

/-- Model of `Resolver::resolve_local` (src/resolver.rs, lines 93-108):
record the distance of the first scope containing the name in the
interpreter's `locals` table; if no scope contains it, record nothing
(dynamic global lookup at runtime). -/
def Resolver.resolve_local (rs : Resolver) (target : Expr) (name : RatexToken) :
    Resolver :=
  match findScopeDepth rs.scopes name.lexeme with
  | some d => { rs with locals := localsInsert rs.locals target d }
  | none => rs

/-- Model of `Resolver::declare` (src/resolver.rs, lines 64-79): no-op when
no scope is open, `RedeclareLocalVariable` when the innermost scope already
holds the name, else mark it unready. -/
def Resolver.declare (rs : Resolver) (name : RatexToken) : Res Unit × Resolver :=
  match rs.scopes with
  | [] => (.ok (), rs)
  | s :: rest =>
    if balistContains s name.lexeme then
      (.err (.RedeclareLocalVariable name.line), rs)
    else
      (.ok (), { rs with scopes := balistInsert s name.lexeme false :: rest })

/-- Model of `Resolver::define` (src/resolver.rs, lines 81-91): mark the
name ready in the innermost scope (no-op when no scope is open). -/
def Resolver.define (rs : Resolver) (name : RatexToken) : Resolver :=
  match rs.scopes with
  | [] => rs
  | s :: rest => { rs with scopes := balistInsert s name.lexeme true :: rest }

/-- Model of the parameter loop of `Resolver::resolve_function`
(src/resolver.rs, lines 116-119): declare then define every parameter. -/
def declareParams : List RatexToken → Resolver → Res Unit × Resolver
  | [], rs => (.ok (), rs)
  | p :: ps, rs =>
    andThen (Resolver.declare rs p) fun _ rs1 =>
    declareParams ps (Resolver.define rs1 p)

mutual
/-- Model of the resolver's expression visitors (src/resolver.rs, lines
130-217), dispatched through `resolve_expr` / `accept`. -/
def resolveExpr : Nat → Expr → Resolver → Res Unit × Resolver
  | 0, _, rs => (.fuel, rs)
  | n + 1, e, rs =>
    match e with
    | .Empty => (.panic, rs)
    | .Binary l _ r =>
      andThen (resolveExpr n l rs) fun _ rs1 => resolveExpr n r rs1
    | .Logical l _ r =>
      andThen (resolveExpr n l rs) fun _ rs1 => resolveExpr n r rs1
    | .Set obj _ value =>
      andThen (resolveExpr n value rs) fun _ rs1 => resolveExpr n obj rs1
    | .This kw => (.ok (), Resolver.resolve_local rs (Expr.This kw) kw)
    | .Unary _ r => resolveExpr n r rs
    | .Literal _ => (.ok (), rs)
    | .Grouping g => resolveExpr n g rs
    | .Variable name =>
      match rs.scopes with
      | [] => (.ok (), rs)
      | s :: _ =>
        match balistGet s name.lexeme with
        | some false => (.err .Break, rs)
        | _ => (.ok (), Resolver.resolve_local rs (Expr.Variable name) name)
    | .Assign name value =>
      andThen (resolveExpr n value rs) fun _ rs1 =>
      (.ok (), Resolver.resolve_local rs1 (Expr.Assign name value) name)
    | .Call callee _ args =>
      andThen (resolveExpr n callee rs) fun _ rs1 => resolveExprList n args rs1
    | .Get obj _ => resolveExpr n obj rs
    | .Lambda _ body => resolveStmtList n body rs

/-- Model of the argument loop of the resolver's `visit_call`
(src/resolver.rs, lines 188-190). -/
def resolveExprList : Nat → List Expr → Resolver → Res Unit × Resolver
  | 0, _, rs => (.fuel, rs)
  | _ + 1, [], rs => (.ok (), rs)
  | n + 1, e :: rest, rs =>
    andThen (resolveExpr n e rs) fun _ rs1 => resolveExprList n rest rs1

/-- Model of the resolver's statement visitors (src/resolver.rs, lines
219-313).  Note the faithful quirks: the resolver's `visit_lambda` (lines
195-200) resolves the body with no fresh scope and no parameter
declarations; a `?`-propagated error skips the corresponding `end_scope`. -/
def resolveStmt : Nat → Stmt → Resolver → Res Unit × Resolver
  | 0, _, rs => (.fuel, rs)
  | n + 1, s, rs =>
    match s with
    | .Empty => (.panic, rs)
    | .Block stmts =>
      andThen (resolveStmtList n stmts { rs with scopes := [] :: rs.scopes })
        fun _ rs1 => (.ok (), { rs1 with scopes := rs1.scopes.tail })
    | .Class name methods =>
      andThen (Resolver.declare rs name) fun _ rs1 =>
      andThen
        (resolveMethods n methods
          { Resolver.define rs1 name with
              scopes := balistInsert [] "this" true ::
                (Resolver.define rs1 name).scopes })
        fun _ rs2 => (.ok (), { rs2 with scopes := rs2.scopes.tail })
    | .Expression e => resolveExpr n e rs
    | .If cond t els =>
      andThen (resolveExpr n cond rs) fun _ rs1 =>
      andThen (resolveStmt n t rs1) fun _ rs2 =>
      match els with
      | .Empty => (.ok (), rs2)
      | _ => resolveStmt n els rs2
    | .Fun name params body =>
      andThen (Resolver.declare rs name) fun _ rs1 =>
      resolveFunctionBody n params body .Function (Resolver.define rs1 name)
    | .While cond body =>
      andThen (resolveExpr n cond rs) fun _ rs1 => resolveStmt n body rs1
    | .Break => (.ok (), rs)
    | .Print e => resolveExpr n e rs
    | .Return _ value =>
      match rs.current_function with
      | .None => (.err .InvalidReturnLocation, rs)
      | _ =>
        match value with
        | .Empty => (.ok (), rs)
        | _ => resolveExpr n value rs
    | .Var name init =>
      andThen (Resolver.declare rs name) fun _ rs1 =>
      andThen
        (match init with
         | .Empty => (.ok (), rs1)
         | _ => resolveExpr n init rs1)
        fun _ rs2 => (.ok (), Resolver.define rs2 name)

/-- Model of `Resolver::resolve_list` (src/resolver.rs, lines 41-46). -/
def resolveStmtList : Nat → List Stmt → Resolver → Res Unit × Resolver
  | 0, _, rs => (.fuel, rs)
  | _ + 1, [], rs => (.ok (), rs)
  | n + 1, s :: rest, rs =>
    andThen (resolveStmt n s rs) fun _ rs1 => resolveStmtList n rest rs1

/-- Model of `Resolver::resolve_function` (src/resolver.rs, lines 110-127):
swap the function-kind context, open a scope, declare and define the
parameters, resolve the body, close the scope and restore the context. -/
def resolveFunctionBody : Nat → List RatexToken → List Stmt → FunctionType →
    Resolver → Res Unit × Resolver
  | 0, _, _, _, rs => (.fuel, rs)
  | n + 1, params, body, ftype, rs =>
    let enclosing := rs.current_function
    andThen (declareParams params
        { rs with current_function := ftype, scopes := [] :: rs.scopes })
      fun _ rs1 =>
    andThen (resolveStmtList n body rs1) fun _ rs2 =>
    (.ok (), { rs2 with scopes := rs2.scopes.tail, current_function := enclosing })

/-- Model of the method loop of the resolver's `visit_class`
(src/resolver.rs, lines 303-308): every `Fun` member is resolved as a
function of kind `Method`; other members are skipped. -/
def resolveMethods : Nat → List Stmt → Resolver → Res Unit × Resolver
  | 0, _, rs => (.fuel, rs)
  | _ + 1, [], rs => (.ok (), rs)
  | n + 1, m :: rest, rs =>
    match m with
    | .Fun _ params body =>
      andThen (resolveFunctionBody n params body .Method rs) fun _ rs1 =>
      resolveMethods n rest rs1
    | _ => resolveMethods n rest rs
end

/-- Model of `run` (src/main.rs, lines 109-128) after scanning and parsing:
a fresh interpreter, a resolver pass populating the `locals` table (whose
error result is discarded — `let _ = resolver.resolve_list(...)`), then
`interpret` over the same statement list. -/
def runProgram (fuel : Nat) (prog : List Stmt) : Res Unit × Interp :=
  let (_, rs) := resolveStmtList fuel prog Resolver.new
  interpret fuel prog { RatexInterpreter.new with locals := rs.locals }

/-- Identifier token (`RatexTokenType::Identifier` with a lexeme and line). -/
def tkId (s : String) (line : Nat) : RatexToken :=
  { token_type := RXTT.Identifier, lexeme := s, line := line }

/-- Non-identifier token with the given type, lexeme and line. -/
def tkOp (t : RXTT) (lex : String) (line : Nat) : RatexToken :=
  { token_type := t, lexeme := lex, line := line }

/-- String-literal expression shorthand. -/
def strLit (s : String) : Expr := Expr.Literal (Object.String s)

/-- Projection of the lines printed by `visit_print` from the output
stream, discarding the debug prints of `Environment::get_at`. -/
def printedOf : List OutEvent → List String
  | [] => []
  | .printed s :: rest => s :: printedOf rest
  | .debugEnv _ :: rest => printedOf rest

/-- Constructor discriminant of an `Object`, used to state the
kind-mismatch behaviour of `visit_binary`. -/
def objKind : Object → Nat
  | .Bool _ => 0
  | .String _ => 1
  | .Number _ => 2
  | .Function _ => 3
  | .Class _ => 4
  | .Instance _ => 5
  | .Nil => 6

/-- The program
`{ var a = "x"; class C { m() { return a; } } var obj = C(); obj.m(); }`:
the reference to `a` inside the method body is resolved at distance 2
(method scope, class `this` scope, block scope), but the runtime chain at
that point is method-closure → block environment → globals. -/
def progC1 : List Stmt :=
  [Stmt.Block
    [Stmt.Var (tkId "a" 2) (strLit "x"),
     Stmt.Class (tkId "C" 3)
       [Stmt.Fun (tkId "m" 3) []
         [Stmt.Return (tkId "return" 3) (Expr.Variable (tkId "a" 3))]],
     Stmt.Var (tkId "obj" 4)
       (Expr.Call (Expr.Variable (tkId "C" 4)) (tkOp RXTT.RightParen ")" 4) []),
     Stmt.Expression
       (Expr.Call (Expr.Get (Expr.Variable (tkId "obj" 5)) (tkId "m" 5))
         (tkOp RXTT.RightParen ")" 5) [])]]

/-- Body of `inc`: `i = i + "b"; print i;`. -/
def incBody : List Stmt :=
  [Stmt.Expression (Expr.Assign (tkId "i" 4)
     (Expr.Binary (Expr.Variable (tkId "i" 4)) (tkOp RXTT.Plus "+" 4) (strLit "b"))),
   Stmt.Print (Expr.Variable (tkId "i" 5))]

/-- Body of `counter(start)`:
`var i = start; fun inc() { i = i + "b"; print i; } s2 = s1; s1 = inc;` —
each call hands its `inc` out through the global slots `s1`/`s2`. -/
def counterBody : List Stmt :=
  [Stmt.Var (tkId "i" 2) (Expr.Variable (tkId "start" 2)),
   Stmt.Fun (tkId "inc" 3) [] incBody,
   Stmt.Expression (Expr.Assign (tkId "s2" 6) (Expr.Variable (tkId "s1" 6))),
   Stmt.Expression (Expr.Assign (tkId "s1" 7) (Expr.Variable (tkId "inc" 7)))]

/-- The closure-independence test program of the spec, phrased over strings
(the increment is `+ "b"` so that no float arithmetic is involved):
`var s1; var s2; fun counter(start) { … } counter("a"); counter("a");
s1(); s2();`.  After the two `counter` calls, `s1` holds the `inc` of the
second call and `s2` the `inc` of the first; if the two invocations had
independent state both would print `"ab"`. -/
def progC2 : List Stmt :=
  [Stmt.Var (tkId "s1" 1) Expr.Empty,
   Stmt.Var (tkId "s2" 1) Expr.Empty,
   Stmt.Fun (tkId "counter" 1) [tkId "start" 1] counterBody,
   Stmt.Expression (Expr.Call (Expr.Variable (tkId "counter" 8)) (tkOp RXTT.RightParen ")" 8) [strLit "a"]),
   Stmt.Expression (Expr.Call (Expr.Variable (tkId "counter" 9)) (tkOp RXTT.RightParen ")" 9) [strLit "a"]),
   Stmt.Expression (Expr.Call (Expr.Variable (tkId "s1" 10)) (tkOp RXTT.RightParen ")" 10) []),
   Stmt.Expression (Expr.Call (Expr.Variable (tkId "s2" 11)) (tkOp RXTT.RightParen ")" 11) [])]

/-- A block that completes normally: `{ var x = "v"; }`. -/
def blockVarOnly : Stmt := Stmt.Block [Stmt.Var (tkId "x" 1) (strLit "v")]

/-- A block that exits through a Break signal: `{ var x = "v"; break; }`. -/
def blockVarBreak : Stmt :=
  Stmt.Block [Stmt.Var (tkId "x" 1) (strLit "v"), Stmt.Break]

/-- A block that exits through a runtime error: `{ nope; }` with `nope`
undefined. -/
def blockBadRef : Stmt :=
  Stmt.Block [Stmt.Expression (Expr.Variable (tkId "nope" 1))]

/-- A block that exits through a Return signal: `{ return "r"; }`. -/
def blockReturn : Stmt :=
  Stmt.Block [Stmt.Return (tkId "return" 1) (strLit "r")]

/-- The nested-loop program of the spec's loop-control property:
`var go = true; while (go) { while (true) { break; } go = false;
print "outer-body-end"; } print "done";`.  If Break terminated only the
inner loop, the outer body would finish once and print
`"outer-body-end"` before `"done"`. -/
def progC4 : List Stmt :=
  [Stmt.Var (tkId "go" 1) (Expr.Literal (Object.Bool true)),
   Stmt.While (Expr.Variable (tkId "go" 2))
     (Stmt.Block
       [Stmt.While (Expr.Literal (Object.Bool true)) (Stmt.Block [Stmt.Break]),
        Stmt.Expression (Expr.Assign (tkId "go" 4) (Expr.Literal (Object.Bool false))),
        Stmt.Print (strLit "outer-body-end")]),
   Stmt.Print (strLit "done")]

/-- Body of `getX`: `return this.x;`. -/
def getXBody : List Stmt :=
  [Stmt.Return (tkId "return" 1)
    (Expr.Get (Expr.This (tkOp RXTT.This "this" 1)) (tkId "x" 1))]

/-- The class program of the spec (field value `"five"` standing for `5` so
that no float formatting is involved):
`class Point { getX() { return this.x; } } var p = Point();
p.x = "five"; print p.getX();`. -/
def progC5 : List Stmt :=
  [Stmt.Class (tkId "Point" 1) [Stmt.Fun (tkId "getX" 1) [] getXBody],
   Stmt.Var (tkId "p" 2)
     (Expr.Call (Expr.Variable (tkId "Point" 2)) (tkOp RXTT.RightParen ")" 2) []),
   Stmt.Expression (Expr.Set (Expr.Variable (tkId "p" 3)) (tkId "x" 3) (strLit "five")),
   Stmt.Print (Expr.Call (Expr.Get (Expr.Variable (tkId "p" 4)) (tkId "getX" 4))
     (tkOp RXTT.RightParen ")" 4) [])]

/-- `class C {} var x = C("arg");` — a class of arity 0 called with one
argument. -/
def progC6 : List Stmt :=
  [Stmt.Class (tkId "C" 1) [],
   Stmt.Var (tkId "x" 2)
     (Expr.Call (Expr.Variable (tkId "C" 2)) (tkOp RXTT.RightParen ")" 2) [strLit "arg"])]

/-- `{ var x = "v"; x; }` — a program containing no Print statement whose
only interesting step is one resolved variable lookup. -/
def progC8 : List Stmt :=
  [Stmt.Block [Stmt.Var (tkId "x" 1) (strLit "v"),
               Stmt.Expression (Expr.Variable (tkId "x" 2))]]

/-- `break; print "after";` — a top-level Break followed by a statement. -/
def progC9a : List Stmt := [Stmt.Break, Stmt.Print (strLit "after")]

/-- `nope; print "after";` — a failing statement followed by a Print. -/
def progC9b : List Stmt :=
  [Stmt.Expression (Expr.Variable (tkId "nope" 1)), Stmt.Print (strLit "after")]

/-- Unfolding lemma: one unit of fuel unfolds one `interpStep`. -/
theorem interpRun_succ (n : Nat) (j : Job) (st : Interp) :
    interpRun (n + 1) j st = interpStep (interpRun n) j st := rfl

/-- Bridge lemma: a `jEval` job is `evaluate`. -/
theorem interpRun_jEval (n : Nat) (e : Expr) (st : Interp) :
    interpRun n (Job.jEval e) st = evaluate n e st := rfl

/-- Bridge lemma: a `jArgs` job is `evalArgs`. -/
theorem interpRun_jArgs (n : Nat) (args : List Expr) (st : Interp) :
    interpRun n (Job.jArgs args) st = evalArgs n args st := rfl

/-- Bridge lemma: a `jCall` job is `callCallable`. -/
theorem interpRun_jCall (n : Nat) (i : Nat) (args : List Object) (st : Interp) :
    interpRun n (Job.jCall i args) st = callCallable n i args st := rfl

/-- Bridge lemma: a `jExec` job is `execute`. -/
theorem interpRun_jExec (n : Nat) (s : Stmt) (st : Interp) :
    interpRun n (Job.jExec s) st = execute n s st := rfl

/-- Unfolding lemma for `evaluate` at positive fuel. -/
theorem evaluate_succ (n : Nat) (e : Expr) (st : Interp) :
    evaluate (n + 1) e st = interpStep (interpRun n) (Job.jEval e) st := rfl

/-- Unfolding lemma for `execute` at positive fuel. -/
theorem execute_succ (n : Nat) (s : Stmt) (st : Interp) :
    execute (n + 1) s st = interpStep (interpRun n) (Job.jExec s) st := rfl

/-- C1: the claim that every resolver-recorded distance d makes
`Environment::get_at(current_env, d, name)` agree with the linear
`Environment::get(name)` at evaluation time FAILS on the code: in
`progC1` the resolver records distance 2 for the reference to `a` in the
method body, yet when that reference is evaluated (current environment 2,
the method's closure) the linear search finds `"x"` one hop up while
`get_at` walks two hops to the globals and panics on its `unwrap` — the
whole run aborts with the modelled panic.  The runtime chain is missing
the class `this` layer that the resolver counted. -/
theorem c1_get_at_disagrees_with_get :
    localsGet (resolveStmtList 30 progC1 Resolver.new).2.locals
        (Expr.Variable (tkId "a" 3)) = some 2
    ∧ (runProgram 30 progC1).1 = Res.panic
    ∧ (runProgram 30 progC1).2.environment = 2
    ∧ Environment.get (runProgram 30 progC1).2.envs
        (runProgram 30 progC1).2.environment "a" = Res.ok (Object.String "x")
    ∧ (Environment.get_at (runProgram 30 progC1).2.envs
        (runProgram 30 progC1).2.environment 2 "a").1 = Res.panic :=
  ⟨rfl, rfl, rfl, rfl, rfl⟩

/-- C2: the claim that a call binds parameters into a FRESH CHILD of the
function's closure (leaving the closure unmutated, so that two separate
`counter()` invocations have independent state) FAILS on the code:
`RatexFunction::call` defines parameters — and the body then defines its
locals — directly into the closure environment itself, so in `progC2` the
parameter `start` and the local `i` live in the shared closure
(environment 1) and the `inc` handles from the two `counter` calls print
`"ab"` then `"abb"` instead of `"ab"` twice. -/
theorem c2_calls_share_closure_state :
    (runProgram 60 progC2).1 = Res.ok ()
    ∧ printedOf (runProgram 60 progC2).2.output = ["ab", "abb"]
    ∧ ((runProgram 60 progC2).2.envs.get? 1).map (fun env => alistGet env.values "i")
        = some (some (Object.String "abb"))
    ∧ ((runProgram 60 progC2).2.envs.get? 1).map (fun env => alistGet env.values "start")
        = some (some (Object.String "a")) :=
  ⟨rfl, rfl, rfl, rfl⟩

/-- C3: the claim that a Block restores the previous environment on every
exit path FAILS on the code: `execute_block` restores only on normal
completion, while a Break signal, a runtime error and a Return signal all
return early with the block's child environment (index 1 here) still
current instead of the caller's environment 0. -/
theorem c3_block_env_not_restored_on_error_paths :
    RatexInterpreter.new.environment = 0
    ∧ (execute 10 blockVarOnly RatexInterpreter.new).1 = Res.ok ()
    ∧ (execute 10 blockVarOnly RatexInterpreter.new).2.environment = 0
    ∧ (execute 10 blockVarBreak RatexInterpreter.new).1 = Res.err RatexErrorType.Break
    ∧ (execute 10 blockVarBreak RatexInterpreter.new).2.environment = 1
    ∧ (execute 10 blockBadRef RatexInterpreter.new).1
        = Res.err (RatexErrorType.UndefinedIdentifier "nope")
    ∧ (execute 10 blockBadRef RatexInterpreter.new).2.environment = 1
    ∧ (execute 10 blockReturn RatexInterpreter.new).1
        = Res.err (RatexErrorType.Return (Object.String "r"))
    ∧ (execute 10 blockReturn RatexInterpreter.new).2.environment = 1 :=
  ⟨rfl, rfl, rfl, rfl, rfl, rfl, rfl, rfl, rfl⟩

/-- C4: the claim that every Break is caught at the innermost enclosing
loop FAILS on the code: `visit_while` propagates a Break error straight
out of the loop (first conjunct, for any state and enough fuel), and in
the nested-loop program `progC4` the Break raised in the inner loop also
terminates the outer loop — only `"done"` is printed, the outer body never
finishes an iteration, and `go` is never set to false.  (The Return half
of the claim does hold — `visit_call` catches Return — but the Break half
makes the claim as a whole false.) -/
theorem c4_break_escapes_innermost_loop :
    (∀ (n : Nat) (st : Interp),
      execute (n + 3) (Stmt.While (Expr.Literal (Object.Bool true)) Stmt.Break) st
        = (Res.err RatexErrorType.Break, st))
    ∧ (runProgram 40 progC4).1 = Res.ok ()
    ∧ printedOf (runProgram 40 progC4).2.output = ["done"]
    ∧ Environment.get (runProgram 40 progC4).2.envs 0 "go"
        = Res.ok (Object.Bool true) :=
  ⟨fun _ _ => rfl, rfl, rfl, rfl⟩

/-- C5: the claim that retrieving a method for invocation returns a
Function whose closure is a child of the original closure with `this`
defined FAILS on the code: `RatexInstance::get` hands back the stored
method unchanged (`RatexFunction::bind` is never called anywhere), so in
`progC5` the retrieved `getX` still has its bare declaration-time closure
(environment 1, holding no bindings at all, in particular no `this`), and
`print p.getX();` panics when `this` — resolver-recorded at distance 1 —
is looked up, instead of printing `"five"`. -/
theorem c5_method_retrieved_without_binding_this :
    localsGet (resolveStmtList 40 progC5 Resolver.new).2.locals
        (Expr.This (tkOp RXTT.This "this" 1)) = some 1
    ∧ (runProgram 40 progC5).1 = Res.panic
    ∧ printedOf (runProgram 40 progC5).2.output = []
    ∧ (runProgram 40 progC5).2.funs.get? 1
        = some (Callable.ratexFun ⟨"getX", Stmt.Fun (tkId "getX" 1) [] getXBody, 1⟩)
    ∧ ((runProgram 40 progC5).2.envs.get? 1).map (fun env => env.values) = some [] :=
  ⟨rfl, rfl, rfl, rfl, rfl⟩

/-- C6 counterexample: the class `C` has arity 0, yet calling it with one
argument does not fail with IncompatibleArity — the call succeeds and
manufactures an instance, refuting the claim for Class callees. -/
theorem c6_class_call_skips_arity_check :
    (runProgram 20 progC6).1 = Res.ok ()
    ∧ (runProgram 20 progC6).2.instances = [⟨⟨"C", []⟩, []⟩]
    ∧ Environment.get (runProgram 20 progC6).2.envs 0 "x"
        = Res.ok (Object.Instance 0) :=
  ⟨rfl, rfl, rfl⟩

/-- C6 amended: for a callee that evaluates to a Function, the argument
count is compared with the callee's arity before invocation, and a
mismatch fails with IncompatibleArity leaving the
post-argument-evaluation state untouched (the body is never entered); for
a callee that evaluates to a Class no arity comparison happens — the
arguments are ignored and a fresh Instance of the class is returned. -/
theorem c6_arity_checked_for_functions_only
    (n : Nat) (c : Expr) (p : RatexToken) (args : List Expr)
    (st st1 st2 : Interp) (i k : Nat) (vals : List Object) (kls : RatexClass) :
    (evaluate n c st = (Res.ok (Object.Function i), st1) →
     evalArgs n args st1 = (Res.ok vals, st2) →
     callableArity st2.funs i = Res.ok k →
     vals.length ≠ k →
     evaluate (n + 1) (Expr.Call c p args) st
       = (Res.err RatexErrorType.IncompatibleArity, st2))
    ∧ (evaluate n c st = (Res.ok (Object.Class kls), st1) →
       evalArgs n args st1 = (Res.ok vals, st2) →
       evaluate (n + 1) (Expr.Call c p args) st
         = (Res.ok (Object.Instance st2.instances.length),
            { st2 with instances := st2.instances ++ [⟨kls, []⟩] })) := by
  constructor
  · intro h1 h2 h3 h4
    simp only [evaluate_succ, interpStep, interpRun_jEval, interpRun_jArgs,
      interpRun_jCall]
    rw [h1]
    simp only [andThen]
    rw [h2]
    simp only [andThen]
    rw [h3]
    simp [h4]
  · intro h1 h2
    simp only [evaluate_succ, interpStep, interpRun_jEval, interpRun_jArgs]
    rw [h1]
    simp only [andThen]
    rw [h2]

/-- C6 witness: the amended theorem applied at concrete inputs — the
`clock` builtin (arity 0) called with one string argument fails with
IncompatibleArity before any body runs, and a class value called with the
same argument yields a fresh instance. -/
theorem c6_arity_checked_for_functions_only_witness :
    evaluate 6 (Expr.Call (Expr.Literal (Object.Function 0))
        (tkOp RXTT.RightParen ")" 1) [strLit "q"]) RatexInterpreter.new
      = (Res.err RatexErrorType.IncompatibleArity, RatexInterpreter.new)
    ∧ evaluate 6 (Expr.Call (Expr.Literal (Object.Class ⟨"K", []⟩))
        (tkOp RXTT.RightParen ")" 1) [strLit "q"]) RatexInterpreter.new
      = (Res.ok (Object.Instance 0),
         { RatexInterpreter.new with instances := [⟨⟨"K", []⟩, []⟩] }) :=
  ⟨(c6_arity_checked_for_functions_only 5 (Expr.Literal (Object.Function 0))
      (tkOp RXTT.RightParen ")" 1) [strLit "q"] RatexInterpreter.new
      RatexInterpreter.new RatexInterpreter.new 0 0 [Object.String "q"]
      ⟨"K", []⟩).1 rfl rfl rfl (by decide),
   (c6_arity_checked_for_functions_only 5 (Expr.Literal (Object.Class ⟨"K", []⟩))
      (tkOp RXTT.RightParen ")" 1) [strLit "q"] RatexInterpreter.new
      RatexInterpreter.new RatexInterpreter.new 0 0 [Object.String "q"]
      ⟨"K", []⟩).2 rfl rfl⟩

/-- C7: `visit_binary` semantics — on two Numbers the arithmetic operators
return the IEEE-754 double result and the comparisons the IEEE
comparison; on two Strings `+` concatenates; every mixed-kind operand
pair yields Nil; and a Binary expression over evaluated operands always
yields `ok` of the total `binaryOp` — never an error. -/
theorem c7_binary_operator_semantics :
    (∀ n1 n2 : Float,
      binaryOp (Object.Number n1) RXTT.Plus (Object.Number n2) = Object.Number (n1 + n2)
      ∧ binaryOp (Object.Number n1) RXTT.Minus (Object.Number n2) = Object.Number (n1 - n2)
      ∧ binaryOp (Object.Number n1) RXTT.Star (Object.Number n2) = Object.Number (n1 * n2)
      ∧ binaryOp (Object.Number n1) RXTT.Slash (Object.Number n2) = Object.Number (n1 / n2)
      ∧ binaryOp (Object.Number n1) RXTT.Greater (Object.Number n2)
          = Object.Bool (decide (n1 > n2))
      ∧ binaryOp (Object.Number n1) RXTT.GreaterEqual (Object.Number n2)
          = Object.Bool (decide (n1 ≥ n2))
      ∧ binaryOp (Object.Number n1) RXTT.Less (Object.Number n2)
          = Object.Bool (decide (n1 < n2))
      ∧ binaryOp (Object.Number n1) RXTT.LessEqual (Object.Number n2)
          = Object.Bool (decide (n1 ≤ n2))
      ∧ binaryOp (Object.Number n1) RXTT.EqualEqual (Object.Number n2)
          = Object.Bool (n1 == n2)
      ∧ binaryOp (Object.Number n1) RXTT.BangEqual (Object.Number n2)
          = Object.Bool (n1 != n2))
    ∧ (∀ s1 s2 : String,
        binaryOp (Object.String s1) RXTT.Plus (Object.String s2)
          = Object.String (s1 ++ s2))
    ∧ (∀ (l r : Object) (op : RXTT),
        objKind l ≠ objKind r → binaryOp l op r = Object.Nil)
    ∧ (∀ (n : Nat) (lv rv : Object) (op : RatexToken) (st : Interp),
        evaluate (n + 2) (Expr.Binary (Expr.Literal lv) op (Expr.Literal rv)) st
          = (Res.ok (binaryOp lv op.token_type rv), st)) := by
  refine ⟨fun n1 n2 => ⟨rfl, rfl, rfl, rfl, rfl, rfl, rfl, rfl, rfl, rfl⟩,
    fun s1 s2 => rfl, ?_, fun n lv rv op st => rfl⟩
  intro l r op h
  cases l <;> cases r <;> first | rfl | exact absurd rfl h

/-- C7 witness: the mixed-kind clause applied to number + string, the
spec's own example of a combination with no defined meaning. -/
theorem c7_binary_operator_semantics_witness :
    binaryOp (Object.Number 1.0) RXTT.Plus (Object.String "b") = Object.Nil :=
  c7_binary_operator_semantics.2.2.1 (Object.Number 1.0) (Object.String "b")
    RXTT.Plus (by decide)

/-- C8: the claim that Print is the only producer of external output FAILS
on the code: `Environment::get_at` begins with `println!("{:?}", &env)`,
so in `progC8` — a program with no Print statement — the single resolved
variable lookup writes a debug dump of environment 1 to stdout. -/
theorem c8_resolved_lookup_writes_to_stdout :
    (runProgram 20 progC8).1 = Res.ok ()
    ∧ (runProgram 20 progC8).2.output = [OutEvent.debugEnv 1]
    ∧ printedOf (runProgram 20 progC8).2.output = [] :=
  ⟨rfl, rfl, rfl⟩

/-- C9: `interpret` executes the top-level statements in order, swallows a
top-level Break as a no-op (the loop continues, and `interpret` can still
return Ok), and aborts on any other error, returning it: stated as the
dispatch equations of the interpret loop together with two concrete runs
(`break; print "after";` prints `"after"` and ends Ok; a failing first
statement aborts with its error before the Print runs). -/
theorem c9_interpret_swallows_break_aborts_on_errors :
    (∀ (fuel : Nat) (st : Interp), interpret fuel [] st = (Res.ok (), st))
    ∧ (∀ (fuel : Nat) (s : Stmt) (rest : List Stmt) (st st1 : Interp),
        execute fuel s st = (Res.err RatexErrorType.Break, st1) →
        interpret fuel (s :: rest) st = interpret fuel rest st1)
    ∧ (∀ (fuel : Nat) (s : Stmt) (rest : List Stmt) (st st1 : Interp)
        (e1 : RatexErrorType), execute fuel s st = (Res.err e1, st1) →
        e1 ≠ RatexErrorType.Break →
        interpret fuel (s :: rest) st = (Res.err e1, st1))
    ∧ (∀ (fuel : Nat) (s : Stmt) (rest : List Stmt) (st st1 : Interp),
        execute fuel s st = (Res.ok (), st1) →
        interpret fuel (s :: rest) st = interpret fuel rest st1)
    ∧ (runProgram 20 progC9a).1 = Res.ok ()
    ∧ printedOf (runProgram 20 progC9a).2.output = ["after"]
    ∧ (runProgram 20 progC9b).1 = Res.err (RatexErrorType.UndefinedIdentifier "nope")
    ∧ printedOf (runProgram 20 progC9b).2.output = [] := by
  refine ⟨fun _ _ => rfl, ?_, ?_, ?_, rfl, rfl, rfl, rfl⟩
  · intro fuel s rest st st1 h
    simp only [interpret]
    rw [h]
  · intro fuel s rest st st1 e1 h hne
    cases e1 <;> simp only [interpret] <;> rw [h]
    exact absurd rfl hne
  · intro fuel s rest st st1 h
    simp only [interpret]
    rw [h]

/-- C9 witness: the Break-swallowing equation applied to the concrete
program `break; print "after";`. -/
theorem c9_interpret_swallows_break_aborts_on_errors_witness :
    interpret 10 progC9a RatexInterpreter.new
      = interpret 10 [Stmt.Print (strLit "after")] RatexInterpreter.new :=
  c9_interpret_swallows_break_aborts_on_errors.2.1 10 Stmt.Break
    [Stmt.Print (strLit "after")] RatexInterpreter.new RatexInterpreter.new rfl

/-- C10: the truthiness table of `Object::is_truthy` — a Bool is itself,
Nil is false, a Number is truthy iff it differs from 0.0 under IEEE
equality, a String is truthy iff non-empty, and Function, Class and
Instance values are always truthy — and `visit_if` / `visit_logical`
dispatch on exactly this predicate. -/
theorem c10_truthiness_table :
    (∀ b, Object.is_truthy (Object.Bool b) = b)
    ∧ Object.is_truthy Object.Nil = false
    ∧ (∀ n : Float, Object.is_truthy (Object.Number n) = (n != 0.0))
    ∧ (∀ s : String, Object.is_truthy (Object.String s) = decide (s.length > 0))
    ∧ (∀ f, Object.is_truthy (Object.Function f) = true)
    ∧ (∀ c, Object.is_truthy (Object.Class c) = true)
    ∧ (∀ i, Object.is_truthy (Object.Instance i) = true)
    ∧ (∀ (n : Nat) (v : Object) (t : Stmt) (st : Interp),
        execute (n + 2) (Stmt.If (Expr.Literal v) t Stmt.Empty) st
          = if v.is_truthy then execute (n + 1) t st else (Res.ok (), st))
    ∧ (∀ (n : Nat) (v w : Object) (st : Interp),
        evaluate (n + 2)
          (Expr.Logical (Expr.Literal v) (tkOp RXTT.Or "or" 1) (Expr.Literal w)) st
          = (Res.ok (if v.is_truthy then v else w), st))
    ∧ (∀ (n : Nat) (v w : Object) (st : Interp),
        evaluate (n + 2)
          (Expr.Logical (Expr.Literal v) (tkOp RXTT.And "and" 1) (Expr.Literal w)) st
          = (Res.ok (if v.is_truthy then w else v), st)) := by
  refine ⟨fun _ => rfl, rfl, fun _ => rfl, fun _ => rfl, fun _ => rfl, fun _ => rfl,
    fun _ => rfl, fun _ _ _ _ => rfl, ?_, ?_⟩
  · intro n v w st
    cases h : v.is_truthy <;>
      simp [evaluate_succ, interpStep, interpRun_jEval, andThen, tkOp, h]
  · intro n v w st
    cases h : v.is_truthy <;>
      simp [evaluate_succ, interpStep, interpRun_jEval, andThen, tkOp, h]
